import Mathlib

/-!
Shallow embedding of the data-transformation and classification core of
`src/gis-explorer.js` (Geospatial-Explorer): GeoJSON-to-graphic conversion
(`addGeoJSONToMap`), field-type inference, field statistics
(`analyzeFieldValues`), color generation (`generateColors`) and
classification-renderer construction (`applyFieldClassification`),
together with theorems settling the specified properties.

JavaScript numbers are modelled as rationals (the code performs no
arithmetic on attribute values beyond `Number.isInteger` and `isNaN`
checks; `NaN` never arises in the modelled fragment).  JavaScript objects
used as dictionaries (`valueCount`, the graphic `attributes`) are modelled
as insertion-ordered association lists with JS property-order semantics.
-/

namespace GISExplorer

/-- A JavaScript attribute value as it occurs in `feature.properties` /
`feature.attributes`: `null`, `undefined`, a (non-`NaN`) number, a string,
or a boolean. -/
inductive JSValue where
  | null : JSValue
  | undefined : JSValue
  | num (q : ℚ) : JSValue
  | str (s : String) : JSValue
  | bool (b : Bool) : JSValue
deriving DecidableEq, Repr

/-- `String(value)` for a JS number, as used by `String(value)` in
`analyzeFieldValues`.  Integral values print as plain decimal integers
(the only case exercised anywhere in this development); non-integral
values are rendered as `num/den`, a modelling stand-in for the
double shortest-round-trip decimal form, which no theorem depends on. -/
def jsNumToString (q : ℚ) : String :=
  if q.den = 1 then
    (if q.num < 0 then "-" ++ toString q.num.natAbs else toString q.num.natAbs)
  else toString q.num ++ "/" ++ toString q.den

/-- JavaScript `String(value)` coercion (line 1283: `const key = String(value)`). -/
def jsString : JSValue → String
  | .null => "null"
  | .undefined => "undefined"
  | .num q => jsNumToString q
  | .str s => s
  | .bool true => "true"
  | .bool false => "false"

/-- A feature as returned by `layer.queryFeatures` in `analyzeFieldValues`:
only its attribute object matters. -/
structure QueryFeature where
  attributes : List (String × JSValue)
deriving DecidableEq, Repr

/-- JavaScript property read `feature.attributes[fieldName]`: `undefined`
when the key is absent. -/
def getAttr (f : QueryFeature) (fieldName : String) : JSValue :=
  (f.attributes.lookup fieldName).getD JSValue.undefined

/-- The filter of line 1278:
`value !== null && value !== undefined && value !== ''`
(strict inequality, so the number `0` and the boolean `false` pass). -/
def isValidValue (v : JSValue) : Bool :=
  decide (v ≠ JSValue.null ∧ v ≠ JSValue.undefined ∧ v ≠ JSValue.str "")

/-- One step of `valueCount[key] = (valueCount[key] || 0) + 1` on the
insertion-ordered association list modelling the `valueCount` object:
an existing key keeps its position, a new key is appended. -/
def tallyInsert (k : String) : List (String × Nat) → List (String × Nat)
  | [] => [(k, 1)]
  | (k', c) :: rest =>
    if k' = k then (k', c + 1) :: rest else (k', c) :: tallyInsert k rest

/-- The `validValues.forEach` tally loop of lines 1281-1285. -/
def tally (keys : List String) : List (String × Nat) :=
  keys.foldl (fun acc k => tallyInsert k acc) []

/-- Decimal digit test for a character. -/
def isDigitChar (c : Char) : Bool :=
  decide ('0' ≤ c) && decide (c ≤ '9')

/-- Whether a character list is the canonical decimal numeral of a
natural number: nonempty, all digits, no leading zero (except `"0"`
itself). -/
def isCanonicalDecimal : List Char → Bool
  | [] => false
  | [c] => isDigitChar c
  | c :: rest => isDigitChar c && decide (c ≠ '0') && rest.all isDigitChar

/-- Value of a decimal digit string (left fold; meaningful only on
digit strings). -/
def decDigitsVal : List Char → Nat → Nat
  | [], acc => acc
  | c :: cs, acc => decDigitsVal cs (acc * 10 + (c.toNat - '0'.toNat))

/-- Numeric value of an array-index key (meaningful only on index keys). -/
def arrayIndexVal (s : String) : Nat :=
  decDigitsVal s.data 0

/-- Whether a string is a JavaScript array-index property key: the
canonical decimal numeral of a natural number below `2^32 - 1`.  Such
keys are enumerated first (in ascending numeric order) by
`Object.entries`. -/
def isArrayIndexKey (s : String) : Bool :=
  isCanonicalDecimal s.data && decide (arrayIndexVal s < 4294967295)

/-- Insert an entry into a list of array-index-keyed entries, keeping
ascending numeric key order (index keys are pairwise distinct, so ties
cannot occur). -/
def insertAscIdx (e : String × Nat) : List (String × Nat) → List (String × Nat)
  | [] => [e]
  | e' :: rest =>
    if arrayIndexVal e.1 < arrayIndexVal e'.1 then e :: e' :: rest
    else e' :: insertAscIdx e rest

/-- Sort entries by ascending numeric key value (insertion sort). -/
def sortAscIdx : List (String × Nat) → List (String × Nat)
  | [] => []
  | e :: rest => insertAscIdx e (sortAscIdx rest)

/-- `Object.entries(valueCount)` property enumeration order: array-index
keys first in ascending numeric order, then the remaining keys in
insertion order. -/
def jsEntries (t : List (String × Nat)) : List (String × Nat) :=
  sortAscIdx (t.filter fun e => isArrayIndexKey e.1) ++
    t.filter fun e => !isArrayIndexKey e.1

/-- Insert an entry into a count-descending list, after entries with
strictly greater count and before the first entry with count `≤` its own
(the position a stable descending sort gives the earlier element). -/
def insertDesc (e : String × Nat) : List (String × Nat) → List (String × Nat)
  | [] => [e]
  | e' :: rest =>
    if e'.2 ≤ e.2 then e :: e' :: rest else e' :: insertDesc e rest

/-- Stable sort by count descending, modelling line 1289's
`.sort((a, b) => b[1] - a[1])` (JS `Array.prototype.sort` is stable). -/
def sortByCountDesc : List (String × Nat) → List (String × Nat)
  | [] => []
  | e :: rest => insertDesc e (sortByCountDesc rest)

/-- The result record of `analyzeFieldValues` (lines 1296-1302). -/
structure FieldStats where
  totalFeatures : Nat
  validCount : Nat
  uniqueCount : Nat
  sortedValues : List (String × Nat)
  fieldName : String
deriving DecidableEq, Repr

/-- The string keys of the valid values of a field, in feature order:
`values.filter(...)` of line 1278 followed by the `String(value)` keys of
line 1283. -/
def fieldValueKeys (features : List QueryFeature) (fieldName : String) : List String :=
  ((features.map fun f => getAttr f fieldName).filter isValidValue).map jsString

/-- The `Object.entries(valueCount)` list for a field, before sorting. -/
def statsEntries (features : List QueryFeature) (fieldName : String) : List (String × Nat) :=
  jsEntries (tally (fieldValueKeys features fieldName))

/-- `analyzeFieldValues(layer, fieldName)` (lines 1261-1308), applied to
the features the layer query returns: `null` on an empty feature set,
otherwise the statistics record with `sortedValues` truncated to the top
20 buckets. -/
def analyzeFieldValues (features : List QueryFeature) (fieldName : String) :
    Option FieldStats :=
  if features.length = 0 then none
  else
    let values := features.map fun f => getAttr f fieldName
    let validValues := values.filter isValidValue
    let valueCount := tally (validValues.map jsString)
    let sortedValues := (sortByCountDesc (jsEntries valueCount)).take 20
    some { totalFeatures := features.length
           validCount := validValues.length
           uniqueCount := valueCount.length
           sortedValues := sortedValues
           fieldName := fieldName }

/-! ### GeoJSON-to-graphic conversion (`addGeoJSONToMap`, lines 689-878) -/

/-- A GeoJSON coordinate position: an array of numbers. -/
abbrev Position := List ℚ

/-- A linear ring / path: an array of positions. -/
abbrev Ring := List Position

/-- A GeoJSON geometry, classified by the lowercased `geometry.type`
string exactly as the `switch` of lines 700-760 does; `unsupported`
carries any type string reaching the `default` branch.  Coordinate
nesting depth is intrinsic to each constructor. -/
inductive GeoJSONGeometry where
  | point (coordinates : Position)
  | linestring (coordinates : List Position)
  | polygon (coordinates : List Ring)
  | multipoint (coordinates : List Position)
  | multilinestring (coordinates : List (List Position))
  | multipolygon (coordinates : List (List Ring))
  | unsupported (typeName : String)
deriving DecidableEq, Repr

/-- The ArcGIS-side geometry object built by the `switch` (spatial
reference is always `{ wkid: 4326 }` and is omitted). -/
inductive ConvertedGeometry where
  | point (longitude latitude : Option ℚ)
  | polyline (paths : List (List Position))
  | polygon (rings : List Ring)
  | multipoint (points : List Position)
deriving DecidableEq, Repr

/-- The geometry conversion of lines 697-761: the local `geometry`
variable is `null` when `feature.geometry` is absent or its type is
unrecognized; a multipolygon's parts are flattened into one ring list
(`allRings`) in part-then-ring order. -/
def convertGeometry : Option GeoJSONGeometry → Option ConvertedGeometry
  | none => none
  | some (.point cs) => some (.point (cs.get? 0) (cs.get? 1))
  | some (.linestring cs) => some (.polyline [cs])
  | some (.polygon cs) => some (.polygon cs)
  | some (.multipoint cs) => some (.multipoint cs)
  | some (.multilinestring cs) => some (.polyline cs)
  | some (.multipolygon cs) => some (.polygon cs.flatten)
  | some (.unsupported _) => none

/-- An uploaded GeoJSON feature: optional geometry plus a properties
object. -/
structure GeoFeature where
  geometry : Option GeoJSONGeometry
  properties : List (String × JSValue)
deriving DecidableEq, Repr

/-- JavaScript property read `feature.properties[key]`. -/
def getProp (f : GeoFeature) (key : String) : JSValue :=
  (f.properties.lookup key).getD JSValue.undefined

/-- Setting a key on a JS object modelled as an insertion-ordered
association list: an existing key is overwritten in place, a new key is
appended. -/
def jsObjSet (obj : List (String × JSValue)) (k : String) (v : JSValue) :
    List (String × JSValue) :=
  match obj with
  | [] => [(k, v)]
  | (k', v') :: rest =>
    if k' = k then (k', v) :: rest else (k', v') :: jsObjSet rest k v

/-- An Esri `Graphic` as constructed at lines 770-773. -/
structure Graphic where
  geometry : Option ConvertedGeometry
  attributes : List (String × JSValue)
deriving DecidableEq, Repr

/-- The graphic built for the feature at position `index` (lines
763-773): attributes are the object literal
`{ OBJECTID: index + 1, FID: index + 1, ...feature.properties }`, whose
spread overwrites `OBJECTID`/`FID` in place if the properties carry those
keys. -/
def makeGraphic (index : Nat) (f : GeoFeature) : Graphic :=
  { geometry := convertGeometry f.geometry
    attributes := f.properties.foldl (fun o kv => jsObjSet o kv.1 kv.2)
      [("OBJECTID", .num ((index + 1 : ℕ) : ℚ)), ("FID", .num ((index + 1 : ℕ) : ℚ))] }

/-- The `graphics` array of lines 695-774: map every feature (with its
index) to a graphic, then drop graphics whose geometry is `null`. -/
def geoJSONGraphics (features : List GeoFeature) : List Graphic :=
  (features.enum.map fun p => makeGraphic p.1 p.2).filter fun g => g.geometry.isSome

/-- The `OBJECTID` attribute of each produced graphic, in layer order. -/
def graphicObjectIds (graphics : List Graphic) : List (Option JSValue) :=
  graphics.map fun g => g.attributes.lookup "OBJECTID"

/-! ### Field-type inference (lines 782-811) -/

/-- The test of line 793, `typeof value === 'number' && !isNaN(value)`
(`NaN` does not occur in the model). -/
def isNumberValue : JSValue → Bool
  | .num _ => true
  | _ => false

/-- The test of line 795, `!Number.isInteger(value)`, for a numeric
value. -/
def isDecimalNumber : JSValue → Bool
  | .num q => decide (q.den ≠ 1)
  | _ => false

/-- The per-key type detection of lines 785-804: scan every feature's
value for `key`; if any is a number the type is `"double"` when any
numeric value is non-integral and `"integer"` otherwise, and only when no
value at all is a number does the default `"string"` survive. -/
def inferFieldType (features : List GeoFeature) (key : String) : String :=
  let hasNumber := features.any fun f => isNumberValue (getProp f key)
  let hasDecimal := features.any fun f => isDecimalNumber (getProp f key)
  if hasNumber then (if hasDecimal then "double" else "integer") else "string"

/-! ### Classification renderer (`generateColors`, `applyFieldClassification`,
`createDefaultSymbol`, lines 1351-1511) -/

/-- A renderer symbol: simple-marker, simple-line or simple-fill, with
the attributes the code sets (colors are RGB or RGBA component lists). -/
inductive Symbol where
  | marker (color : List ℚ) (size : ℚ) (outlineColor : List ℚ) (outlineWidth : ℚ)
  | line (color : List ℚ) (width : ℚ)
  | fill (color : List ℚ) (outlineColor : List ℚ) (outlineWidth : ℚ)
deriving DecidableEq, Repr

/-- One entry of the renderer's `uniqueValueInfos` array (lines
1447-1451). -/
structure UniqueValueInfo where
  value : String
  symbol : Symbol
  label : String
deriving DecidableEq, Repr

/-- A layer renderer: simple, or unique-value with ordered rules, a
default symbol and a default label. -/
inductive Renderer where
  | simple (symbol : Symbol)
  | uniqueValue (field : String) (infos : List UniqueValueInfo)
      (defaultSymbol : Symbol) (defaultLabel : String)
deriving DecidableEq, Repr

/-- The 20-entry `colors` palette of `generateColors` (lines 1353-1374). -/
def classificationColors : List (List ℚ) :=
  [[59, 130, 246], [34, 197, 94], [249, 115, 22], [139, 92, 246], [236, 72, 153],
   [20, 184, 166], [245, 158, 11], [239, 68, 68], [156, 163, 175], [16, 185, 129],
   [124, 58, 237], [217, 70, 239], [14, 165, 233], [34, 197, 94], [251, 146, 60],
   [244, 63, 94], [168, 85, 247], [59, 130, 246], [16, 185, 129], [245, 158, 11]]

/-- `generateColors(count)` (lines 1352-1381): `count` colors, cycling
through the palette modulo its length. -/
def generateColors (count : Nat) : List (List ℚ) :=
  (List.range count).map fun i =>
    classificationColors.getD (i % classificationColors.length) []

/-- The per-geometry-type classified symbol of lines 1418-1445: marker of
size 8, line of width 3, or fill with opacity 0.7 (`[...color, 0.7]`) and
an outline of the same color, width 2. -/
def classificationSymbol (geometryType : String) (color : List ℚ) : Symbol :=
  if geometryType = "point" then .marker color 8 [255, 255, 255] 1
  else if geometryType = "polyline" then .line color 3
  else .fill (color ++ [(0.7 : ℚ)]) color 2

/-- `createDefaultSymbol(geometryType)` (lines 1484-1511): the neutral
gray symbol for the renderer's `defaultSymbol`. -/
def createDefaultSymbol (geometryType : String) : Symbol :=
  if geometryType = "point" then .marker [128, 128, 128, (0.8 : ℚ)] 6 [255, 255, 255] 1
  else if geometryType = "polyline" then .line [128, 128, 128, (0.8 : ℚ)] 2
  else .fill [128, 128, 128, (0.5 : ℚ)] [128, 128, 128] 1

/-- The `uniqueValueInfos` construction of lines 1413-1452: the i-th rule
takes the i-th generated color and the label `` `${value} (${count})` ``. -/
def buildUniqueValueInfos (sortedValues : List (String × Nat)) (geometryType : String) :
    List UniqueValueInfo :=
  let colors := generateColors sortedValues.length
  sortedValues.enum.map fun p =>
    { value := p.2.1
      symbol := classificationSymbol geometryType (colors.getD p.1 [])
      label := p.2.1 ++ " (" ++ toString p.2.2 ++ ")" }

/-- The unique-value renderer object of lines 1455-1461 (`defaultLabel`
is the Arabic string "أخرى"). -/
def buildClassificationRenderer (fieldName : String) (stats : FieldStats)
    (geometryType : String) : Renderer :=
  .uniqueValue fieldName (buildUniqueValueInfos stats.sortedValues geometryType)
    (createDefaultSymbol geometryType) "أخرى"

/-- The color the classification assigned to a rule's symbol: the marker
or line color, and for a fill the outline color (the fill color is the
same base color with the 0.7 opacity component appended). -/
def symbolBaseColor : Symbol → List ℚ
  | .marker c _ _ _ => c
  | .line c _ => c
  | .fill _ oc _ => oc

/-- The classification-relevant state of a layer. -/
structure Layer where
  features : List QueryFeature
  geometryType : String
  renderer : Renderer
deriving DecidableEq, Repr

/-- The user-visible alert messages of `applyFieldClassification`:
line 1389 ("يرجى اختيار حقل للتصنيف") and line 1403
("لا توجد قيم صالحة في الحقل المحدد"). -/
inductive Message where
  | selectFieldPrompt
  | noValidValues
deriving DecidableEq, Repr

/-- The mutable state `applyFieldClassification` touches: the field
selection, the current classification layer (whose renderer it may
replace) and the map legend. -/
structure ClassificationState where
  fieldSelectValue : String
  currentClassificationLayer : Option Layer
  legend : Option (FieldStats × List (List ℚ) × String)
deriving DecidableEq, Repr

/-- The tail of `applyFieldClassification` from line 1402 on, given the
statistics query result: abort with an alert when the statistics are
`null` or have no unique value, otherwise replace the layer's renderer
(line 1464) and the legend (line 1467). -/
def classifyWithStats (st : ClassificationState) (layer : Layer) :
    Option FieldStats → ClassificationState × Option Message
  | none => (st, some .noValidValues)
  | some stats =>
    if stats.uniqueCount = 0 then (st, some .noValidValues)
    else
      ({ st with
          currentClassificationLayer := some { layer with
            renderer := buildClassificationRenderer st.fieldSelectValue stats
              layer.geometryType }
          legend := some (stats, generateColors stats.sortedValues.length,
            st.fieldSelectValue) }, none)

/-- The `!currentClassificationLayer` half of line 1388's guard, then the
statistics query. -/
def classifyWithLayer (st : ClassificationState) :
    Option Layer → ClassificationState × Option Message
  | none => (st, some .selectFieldPrompt)
  | some layer =>
    classifyWithStats st layer (analyzeFieldValues layer.features st.fieldSelectValue)

/-- `applyFieldClassification()` (lines 1384-1481) as a state transition
returning the new state and the alert message, if any: abort with an
alert when no field is selected or no layer is current (line 1388), or
when the statistics are `null` or have no unique value (line 1402);
otherwise replace the layer's renderer and the legend. -/
def applyFieldClassification (st : ClassificationState) :
    ClassificationState × Option Message :=
  if st.fieldSelectValue = "" then (st, some .selectFieldPrompt)
  else classifyWithLayer st st.currentClassificationLayer

/-- A 25-feature input whose field `"k"` takes 25 distinct
single-occurrence string values. -/
def c4WitnessFeatures : List QueryFeature :=
  [⟨[("k", .str "a")]⟩, ⟨[("k", .str "b")]⟩, ⟨[("k", .str "c")]⟩, ⟨[("k", .str "d")]⟩,
   ⟨[("k", .str "e")]⟩, ⟨[("k", .str "f")]⟩, ⟨[("k", .str "g")]⟩, ⟨[("k", .str "h")]⟩,
   ⟨[("k", .str "i")]⟩, ⟨[("k", .str "j")]⟩, ⟨[("k", .str "l")]⟩, ⟨[("k", .str "m")]⟩,
   ⟨[("k", .str "n")]⟩, ⟨[("k", .str "o")]⟩, ⟨[("k", .str "p")]⟩, ⟨[("k", .str "q")]⟩,
   ⟨[("k", .str "r")]⟩, ⟨[("k", .str "s")]⟩, ⟨[("k", .str "t")]⟩, ⟨[("k", .str "u")]⟩,
   ⟨[("k", .str "v")]⟩, ⟨[("k", .str "w")]⟩, ⟨[("k", .str "x")]⟩, ⟨[("k", .str "y")]⟩,
   ⟨[("k", .str "z")]⟩]

/-- The statistics the code computes for `c4WitnessFeatures`:
`uniqueCount = 25` but only the first 20 buckets survive truncation. -/
def c4WitnessStats : FieldStats :=
  ⟨25, 25, 25,
   [("a", 1), ("b", 1), ("c", 1), ("d", 1), ("e", 1), ("f", 1), ("g", 1), ("h", 1),
    ("i", 1), ("j", 1), ("l", 1), ("m", 1), ("n", 1), ("o", 1), ("p", 1), ("q", 1),
    ("r", 1), ("s", 1), ("t", 1), ("u", 1)], "k"⟩

/-! ### Theorems -/

/-- Membership in an `insertDesc` insertion. -/
theorem mem_insertDesc {x e : String × Nat} {l : List (String × Nat)} :
    x ∈ insertDesc e l ↔ x = e ∨ x ∈ l := by
  induction l with
  | nil => simp [insertDesc]
  | cons e' rest ih =>
    simp only [insertDesc]
    split
    · simp [List.mem_cons]
    · simp only [List.mem_cons, ih]
      tauto

/-- `insertDesc` permutes consing. -/
theorem perm_insertDesc (e : String × Nat) (l : List (String × Nat)) :
    (insertDesc e l).Perm (e :: l) := by
  induction l with
  | nil => exact List.Perm.refl _
  | cons e' rest ih =>
    simp only [insertDesc]
    split
    · exact List.Perm.refl _
    · exact (ih.cons e').trans (List.Perm.swap e e' rest)

/-- `sortByCountDesc` is a permutation. -/
theorem perm_sortByCountDesc (l : List (String × Nat)) :
    (sortByCountDesc l).Perm l := by
  induction l with
  | nil => exact List.Perm.refl _
  | cons e rest ih => exact (perm_insertDesc e _).trans (ih.cons e)

/-- `insertDesc` preserves descending count order. -/
theorem pairwise_insertDesc {e : String × Nat} {l : List (String × Nat)}
    (h : l.Pairwise fun a b => b.2 ≤ a.2) :
    (insertDesc e l).Pairwise fun a b => b.2 ≤ a.2 := by
  induction l with
  | nil => simp [insertDesc]
  | cons e' rest ih =>
    rw [List.pairwise_cons] at h
    obtain ⟨h1, h2⟩ := h
    simp only [insertDesc]
    split
    · rename_i hle
      rw [List.pairwise_cons]
      refine ⟨fun x hx => ?_, List.pairwise_cons.mpr ⟨h1, h2⟩⟩
      rcases List.mem_cons.mp hx with rfl | hx
      · exact hle
      · exact le_trans (h1 x hx) hle
    · rename_i hgt
      rw [List.pairwise_cons]
      refine ⟨fun x hx => ?_, ih h2⟩
      rcases mem_insertDesc.mp hx with rfl | hx
      · exact (lt_of_not_le hgt).le
      · exact h1 x hx

/-- The sorted bucket list is descending by count. -/
theorem pairwise_sortByCountDesc (l : List (String × Nat)) :
    (sortByCountDesc l).Pairwise fun a b => b.2 ≤ a.2 := by
  induction l with
  | nil => simp [sortByCountDesc]
  | cons e rest ih => exact pairwise_insertDesc ih

/-- Stability of `insertDesc` through a per-count filter: the inserted
element lands in front of exactly the equal-count elements already
present. -/
theorem filter_insertDesc (e : String × Nat) (l : List (String × Nat)) (c : Nat) :
    (insertDesc e l).filter (fun x => x.2 == c) =
      if e.2 = c then e :: l.filter (fun x => x.2 == c)
      else l.filter (fun x => x.2 == c) := by
  induction l with
  | nil => by_cases he : e.2 = c <;> simp [insertDesc, List.filter_cons, he]
  | cons e' rest ih =>
    simp only [insertDesc]
    split
    · rename_i hle
      by_cases he : e.2 = c <;> simp [List.filter_cons, he]
    · rename_i hgt
      rw [List.filter_cons, List.filter_cons, ih]
      by_cases he : e.2 = c
      · have he' : ¬ e'.2 = c := by
          intro h'
          exact hgt (le_of_eq (h'.trans he.symm))
        simp [he, he']
      · simp [he]

/-- Stability of `sortByCountDesc`: the subsequence of any fixed count is
unchanged, i.e. equal-count entries keep their input order. -/
theorem filter_sortByCountDesc (l : List (String × Nat)) (c : Nat) :
    (sortByCountDesc l).filter (fun x => x.2 == c) = l.filter (fun x => x.2 == c) := by
  induction l with
  | nil => rfl
  | cons e rest ih =>
    simp only [sortByCountDesc]
    rw [filter_insertDesc, ih, List.filter_cons]
    by_cases he : e.2 = c <;> simp [he]

/-- The keys of a tally step: an existing key keeps the key list, a new
key is appended. -/
theorem map_fst_tallyInsert (k : String) (acc : List (String × Nat)) :
    (tallyInsert k acc).map Prod.fst =
      if k ∈ acc.map Prod.fst then acc.map Prod.fst else acc.map Prod.fst ++ [k] := by
  induction acc with
  | nil => simp [tallyInsert]
  | cons e rest ih =>
    obtain ⟨k', c⟩ := e
    simp only [tallyInsert]
    by_cases hk : k' = k
    · subst hk
      simp
    · rw [if_neg hk]
      simp only [List.map_cons, ih]
      by_cases hmem : k ∈ rest.map Prod.fst
      · simp [hmem, Ne.symm hk]
      · simp [hmem, Ne.symm hk]

/-- Key membership across the tally fold. -/
theorem mem_map_fst_tally_foldl (keys : List String) (acc : List (String × Nat))
    (k : String) :
    (k ∈ (keys.foldl (fun a kk => tallyInsert kk a) acc).map Prod.fst) ↔
      k ∈ acc.map Prod.fst ∨ k ∈ keys := by
  induction keys generalizing acc with
  | nil => simp
  | cons k0 rest ih =>
    rw [List.foldl_cons, ih, map_fst_tallyInsert]
    by_cases h : k0 ∈ acc.map Prod.fst
    · rw [if_pos h]
      constructor
      · rintro (h1 | h1)
        · exact Or.inl h1
        · exact Or.inr (List.mem_cons_of_mem _ h1)
      · rintro (h1 | h1)
        · exact Or.inl h1
        · rcases List.mem_cons.mp h1 with rfl | h2
          · exact Or.inl h
          · exact Or.inr h2
    · rw [if_neg h]
      simp only [List.mem_append, List.mem_singleton, List.mem_cons]
      tauto

/-- A tallied key is exactly an input key. -/
theorem mem_map_fst_tally (keys : List String) (k : String) :
    k ∈ (tally keys).map Prod.fst ↔ k ∈ keys := by
  rw [tally, mem_map_fst_tally_foldl]
  simp

/-- The tally fold keeps the key list duplicate-free. -/
theorem nodup_map_fst_tally_foldl (keys : List String) (acc : List (String × Nat))
    (h : (acc.map Prod.fst).Nodup) :
    (((keys.foldl (fun a kk => tallyInsert kk a) acc)).map Prod.fst).Nodup := by
  induction keys generalizing acc with
  | nil => exact h
  | cons k0 rest ih =>
    rw [List.foldl_cons]
    refine ih _ ?_
    rw [map_fst_tallyInsert]
    by_cases hmem : k0 ∈ acc.map Prod.fst
    · rwa [if_pos hmem]
    · rw [if_neg hmem]
      simp [List.nodup_append, h, hmem]

/-- Tally buckets have pairwise distinct keys. -/
theorem nodup_map_fst_tally (keys : List String) :
    ((tally keys).map Prod.fst).Nodup := by
  exact nodup_map_fst_tally_foldl keys [] (by simp)

/-- A tally step adds one to the total count. -/
theorem sum_tallyInsert (k : String) (acc : List (String × Nat)) :
    ((tallyInsert k acc).map Prod.snd).sum = ((acc.map Prod.snd).sum) + 1 := by
  induction acc with
  | nil => simp [tallyInsert]
  | cons e rest ih =>
    obtain ⟨k', c⟩ := e
    simp only [tallyInsert]
    by_cases hk : k' = k
    · simp [hk]
      omega
    · simp only [if_neg hk, List.map_cons, List.sum_cons, ih]
      omega

/-- The total bucket count across the fold. -/
theorem sum_tally_foldl (keys : List String) (acc : List (String × Nat)) :
    ((keys.foldl (fun a kk => tallyInsert kk a) acc).map Prod.snd).sum =
      (acc.map Prod.snd).sum + keys.length := by
  induction keys generalizing acc with
  | nil => simp
  | cons k0 rest ih =>
    rw [List.foldl_cons, ih, sum_tallyInsert]
    simp only [List.length_cons]
    omega

/-- The bucket counts sum to the number of tallied values. -/
theorem sum_tally (keys : List String) :
    ((tally keys).map Prod.snd).sum = keys.length := by
  rw [tally, sum_tally_foldl]
  simp

/-- A tally step keeps every count at least 1. -/
theorem pos_tallyInsert (k : String) (acc : List (String × Nat))
    (h : ∀ e ∈ acc, 1 ≤ e.2) : ∀ e ∈ tallyInsert k acc, 1 ≤ e.2 := by
  induction acc with
  | nil =>
    intro e he
    simp only [tallyInsert, List.mem_singleton] at he
    simp [he]
  | cons e0 rest ih =>
    obtain ⟨k', c⟩ := e0
    intro e he
    simp only [tallyInsert] at he
    by_cases hk : k' = k
    · rw [if_pos hk] at he
      rcases List.mem_cons.mp he with rfl | hmem
      · simp
      · exact h e (List.mem_cons_of_mem _ hmem)
    · rw [if_neg hk] at he
      rcases List.mem_cons.mp he with rfl | hmem
      · exact h _ (List.mem_cons_self _ _)
      · exact ih (fun x hx => h x (List.mem_cons_of_mem _ hx)) e hmem

/-- Positivity of counts across the fold. -/
theorem pos_tally_foldl (keys : List String) (acc : List (String × Nat))
    (h : ∀ e ∈ acc, 1 ≤ e.2) :
    ∀ e ∈ keys.foldl (fun a kk => tallyInsert kk a) acc, 1 ≤ e.2 := by
  induction keys generalizing acc with
  | nil => exact h
  | cons k0 rest ih =>
    rw [List.foldl_cons]
    exact ih _ (pos_tallyInsert k0 acc h)

/-- Every tally bucket has count at least 1. -/
theorem pos_tally (keys : List String) : ∀ e ∈ tally keys, 1 ≤ e.2 := by
  exact pos_tally_foldl keys [] (by simp)

/-- `insertAscIdx` permutes consing. -/
theorem perm_insertAscIdx (e : String × Nat) (l : List (String × Nat)) :
    (insertAscIdx e l).Perm (e :: l) := by
  induction l with
  | nil => exact List.Perm.refl _
  | cons e' rest ih =>
    simp only [insertAscIdx]
    split
    · exact List.Perm.refl _
    · exact (ih.cons e').trans (List.Perm.swap e e' rest)

/-- `sortAscIdx` is a permutation. -/
theorem perm_sortAscIdx (l : List (String × Nat)) : (sortAscIdx l).Perm l := by
  induction l with
  | nil => exact List.Perm.refl _
  | cons e rest ih => exact (perm_insertAscIdx e _).trans (ih.cons e)

/-- `Object.entries` enumeration is a permutation of the tally list. -/
theorem perm_jsEntries (t : List (String × Nat)) : (jsEntries t).Perm t := by
  unfold jsEntries
  exact ((perm_sortAscIdx _).append_right _).trans (List.filter_append_perm _ t)

/-- Shape of a non-null `analyzeFieldValues` result: every component in
terms of the pipeline stages. -/
theorem analyze_some_elim {features : List QueryFeature} {fieldName : String}
    {s : FieldStats} (h : analyzeFieldValues features fieldName = some s) :
    features.length ≠ 0 ∧
    s.totalFeatures = features.length ∧
    s.validCount = ((features.map fun f => getAttr f fieldName).filter isValidValue).length ∧
    s.uniqueCount = (tally (fieldValueKeys features fieldName)).length ∧
    s.sortedValues = (sortByCountDesc (statsEntries features fieldName)).take 20 ∧
    s.fieldName = fieldName := by
  rw [analyzeFieldValues] at h
  split at h
  · exact absurd h (by simp)
  · rename_i hne
    injection h with h
    subst h
    exact ⟨hne, rfl, rfl, rfl, rfl, rfl⟩

/-- C2: for a 6-feature layer with field values
`["A","A","B",null,"","C"]` the statistics are `totalFeatures = 6`,
`validCount = 4`, `uniqueCount = 3` and
`sortedValues = [("A",2),("B",1),("C",1)]`; null, undefined and the exact
empty string are excluded with no trimming. -/
theorem c2_stats_example :
    analyzeFieldValues
      [⟨[("field", .str "A")]⟩, ⟨[("field", .str "A")]⟩, ⟨[("field", .str "B")]⟩,
       ⟨[("field", .null)]⟩, ⟨[("field", .str "")]⟩, ⟨[("field", .str "C")]⟩] "field" =
      some ⟨6, 4, 3, [("A", 2), ("B", 1), ("C", 1)], "field"⟩ := by decide

/-- C9: the statistics filter removes exactly the values strictly equal
to null, undefined or the empty string, so the number `0` and the boolean
`false` are valid and are tallied under the keys `"0"` and `"false"`. -/
theorem c9_zero_and_false_are_valid :
    (∀ v : JSValue, isValidValue v = false ↔
      v = .null ∨ v = .undefined ∨ v = .str "") ∧
    isValidValue (.num 0) = true ∧ isValidValue (.bool false) = true ∧
    jsString (.num 0) = "0" ∧ jsString (.bool false) = "false" ∧
    analyzeFieldValues [⟨[("k", .num 0)]⟩, ⟨[("k", .bool false)]⟩, ⟨[("k", .null)]⟩] "k" =
      some ⟨3, 2, 2, [("0", 1), ("false", 1)], "k"⟩ := by
  refine ⟨fun v => ?_, by decide, by decide, by decide, by decide, by decide⟩
  simp only [isValidValue, decide_eq_false_iff_not, not_and_or, not_not]

/-- C1 fails on the code: for the value sequence `[1, "a", 3]` the
inference returns `"integer"`, not `"string"`, because the presence of
the non-numeric value `"a"` is never checked. -/
theorem c1_counterexample :
    inferFieldType
      [⟨none, [("k", .num 1)]⟩, ⟨none, [("k", .str "a")]⟩, ⟨none, [("k", .num 3)]⟩] "k" =
      "integer" ∧ ("integer" : String) ≠ "string" := by decide

/-- C1 (amended): field type inference returns `"string"` exactly when no
observed value of the field is numeric; a non-numeric value among numeric
ones does not force `"string"`, and `[1, "a", 3]` infers `"integer"`. -/
theorem c1_string_iff_no_number (features : List GeoFeature) (key : String) :
    (inferFieldType features key = "string" ↔
      ∀ f ∈ features, isNumberValue (getProp f key) = false) ∧
    inferFieldType
      [⟨none, [("k", .num 1)]⟩, ⟨none, [("k", .str "a")]⟩, ⟨none, [("k", .num 3)]⟩] "k" =
      "integer" := by
  refine ⟨?_, by decide⟩
  simp only [inferFieldType]
  by_cases h : (features.any fun f => isNumberValue (getProp f key)) = true
  · rw [if_pos h]
    refine iff_of_false ?_ ?_
    · split <;> decide
    · simp only [List.any_eq_true] at h
      obtain ⟨f, hf, hP⟩ := h
      intro hall
      have := hall f hf
      rw [this] at hP
      exact Bool.false_ne_true hP
  · rw [if_neg h]
    refine iff_of_true rfl ?_
    rw [Bool.not_eq_true, List.any_eq_false] at h
    intro f hf
    exact Bool.not_eq_true _ |>.mp (h f hf)

/-- C5: a multipolygon's ring lists are concatenated into a single
polygon-tagged geometry; a 2-part multipolygon with ring counts 2 and 3
yields one polygon with exactly 5 rings in part-then-ring order. -/
theorem c5_multipolygon_flatten (p1 p2 : List Ring)
    (h1 : p1.length = 2) (h2 : p2.length = 3) :
    convertGeometry (some (.multipolygon [p1, p2])) =
      some (.polygon (p1 ++ p2)) ∧ (p1 ++ p2).length = 5 := by
  constructor
  · simp [convertGeometry]
  · simp [h1, h2]

/-- Witness for C5 at a concrete 2-part multipolygon. -/
theorem c5_witness :
    convertGeometry
        (some (.multipolygon [[[[0]], [[1]]], [[[2]], [[3]], [[4]]]])) =
      some (.polygon (([[[0]], [[1]]] : List Ring) ++ [[[2]], [[3]], [[4]]])) ∧
      (([[[0]], [[1]]] : List Ring) ++ [[[2]], [[3]], [[4]]]).length = 5 :=
  c5_multipolygon_flatten [[[0]], [[1]]] [[[2]], [[3]], [[4]]] (by decide) (by decide)

/-- C3 fails on the code: for the value sequence `["b", "5"]` (both
counts 1) the output order is `[("5",1), ("b",1)]`, not the
first-occurrence order `[("b",1), ("5",1)]`, because `Object.entries`
enumerates the array-index key `"5"` before the insertion-ordered key
`"b"`. -/
theorem c3_counterexample :
    (analyzeFieldValues [⟨[("k", .str "b")]⟩, ⟨[("k", .str "5")]⟩] "k").map
        FieldStats.sortedValues = some [("5", 1), ("b", 1)] ∧
      (some [("5", 1), ("b", 1)] : Option (List (String × Nat))) ≠
        some [("b", 1), ("5", 1)] := by decide

/-- C4: every non-null statistics result has at most 20 buckets in
`sortedValues`, `uniqueCount` is the untruncated number of distinct valid
values (the tally has duplicate-free keys that are exactly the valid
value keys), the counts in `sortedValues` sum to at most `validCount`,
and the sum equals `validCount` iff `uniqueCount ≤ 20`. -/
theorem c4_stats_invariants (features : List QueryFeature) (fieldName : String)
    (s : FieldStats) (h : analyzeFieldValues features fieldName = some s) :
    s.sortedValues.length ≤ 20 ∧
    s.uniqueCount = (tally (fieldValueKeys features fieldName)).length ∧
    ((tally (fieldValueKeys features fieldName)).map Prod.fst).Nodup ∧
    (∀ k, k ∈ (tally (fieldValueKeys features fieldName)).map Prod.fst ↔
      k ∈ fieldValueKeys features fieldName) ∧
    (s.sortedValues.map Prod.snd).sum ≤ s.validCount ∧
    ((s.sortedValues.map Prod.snd).sum = s.validCount ↔ s.uniqueCount ≤ 20) := by
  obtain ⟨hne, htot, hvc, huc, hsv, hfn⟩ := analyze_some_elim h
  have hvc' : s.validCount = (fieldValueKeys features fieldName).length := by
    rw [hvc, fieldValueKeys, List.length_map]
  have hperm : (sortByCountDesc (statsEntries features fieldName)).Perm
      (tally (fieldValueKeys features fieldName)) :=
    (perm_sortByCountDesc _).trans (perm_jsEntries _)
  have hsum_full : ((sortByCountDesc (statsEntries features fieldName)).map Prod.snd).sum =
      (fieldValueKeys features fieldName).length := by
    rw [(hperm.map Prod.snd).sum_eq, sum_tally]
  have hpos : ∀ x ∈ (sortByCountDesc (statsEntries features fieldName)).map Prod.snd,
      1 ≤ x := by
    intro x hx
    obtain ⟨e, he, rfl⟩ := List.mem_map.mp hx
    exact pos_tally _ e (hperm.mem_iff.mp he)
  have hSlen : ((sortByCountDesc (statsEntries features fieldName)).map Prod.snd).length =
      (tally (fieldValueKeys features fieldName)).length := by
    rw [List.length_map, hperm.length_eq]
  have hmap_take : s.sortedValues.map Prod.snd =
      ((sortByCountDesc (statsEntries features fieldName)).map Prod.snd).take 20 := by
    rw [hsv, List.map_take]
  have hsplit :
      (((sortByCountDesc (statsEntries features fieldName)).map Prod.snd).take 20).sum +
        (((sortByCountDesc (statsEntries features fieldName)).map Prod.snd).drop 20).sum =
        ((sortByCountDesc (statsEntries features fieldName)).map Prod.snd).sum := by
    rw [← List.sum_append, List.take_append_drop]
  refine ⟨?_, huc, nodup_map_fst_tally _, fun k => mem_map_fst_tally _ k, ?_, ?_⟩
  · rw [hsv]
    exact List.length_take_le _ _
  · rw [hmap_take, hvc', ← hsum_full]
    omega
  · constructor
    · intro hsumeq
      rw [hmap_take, hvc', ← hsum_full] at hsumeq
      have h0 : (((sortByCountDesc (statsEntries features fieldName)).map Prod.snd).drop 20).sum = 0 := by
        omega
      have hnil : ((sortByCountDesc (statsEntries features fieldName)).map Prod.snd).drop 20 = [] := by
        cases hd : ((sortByCountDesc (statsEntries features fieldName)).map Prod.snd).drop 20 with
        | nil => rfl
        | cons a l =>
          have ha : a ∈ (sortByCountDesc (statsEntries features fieldName)).map Prod.snd :=
            List.mem_of_mem_drop (hd ▸ List.mem_cons_self a l)
          have h1 := hpos a ha
          rw [hd, List.sum_cons] at h0
          omega
      have hlen20 := List.drop_eq_nil_iff.mp hnil
      rw [huc]
      omega
    · intro hle
      rw [huc] at hle
      have hS20 : ((sortByCountDesc (statsEntries features fieldName)).map Prod.snd).length ≤ 20 := by
        omega
      rw [hmap_take, List.take_of_length_le hS20, hsum_full, hvc']

/-- Witness for C4: 25 distinct single-occurrence values give
`uniqueCount = 25` and `sortedValues.length = 20`. -/
theorem c4_witness :
    analyzeFieldValues c4WitnessFeatures "k" = some c4WitnessStats ∧
    c4WitnessStats.sortedValues.length ≤ 20 ∧
    c4WitnessStats.uniqueCount =
      (tally (fieldValueKeys c4WitnessFeatures "k")).length ∧
    ((tally (fieldValueKeys c4WitnessFeatures "k")).map Prod.fst).Nodup ∧
    (∀ k, k ∈ (tally (fieldValueKeys c4WitnessFeatures "k")).map Prod.fst ↔
      k ∈ fieldValueKeys c4WitnessFeatures "k") ∧
    (c4WitnessStats.sortedValues.map Prod.snd).sum ≤ c4WitnessStats.validCount ∧
    ((c4WitnessStats.sortedValues.map Prod.snd).sum = c4WitnessStats.validCount ↔
      c4WitnessStats.uniqueCount ≤ 20) :=
  ⟨by decide, c4_stats_invariants c4WitnessFeatures "k" c4WitnessStats (by decide)⟩

/-- C3 (amended): `sortedValues` is the first 20 entries of a stable
descending-count sort of the `Object.entries` enumeration of the tally
object — so the buckets are sorted by count descending, but the
tie-break order among equal counts is the entries enumeration order
(array-index-like keys first, in ascending numeric order, then the
remaining keys in first-occurrence insertion order), not first-occurrence
order for every value shape. -/
theorem c3_ties_follow_entries_order (features : List QueryFeature) (fieldName : String)
    (s : FieldStats) (h : analyzeFieldValues features fieldName = some s) :
    s.sortedValues = (sortByCountDesc (statsEntries features fieldName)).take 20 ∧
    (sortByCountDesc (statsEntries features fieldName)).Pairwise (fun a b => b.2 ≤ a.2) ∧
    ∀ c : Nat, (sortByCountDesc (statsEntries features fieldName)).filter (fun e => e.2 == c) =
      (statsEntries features fieldName).filter (fun e => e.2 == c) :=
  ⟨(analyze_some_elim h).2.2.2.2.1, pairwise_sortByCountDesc _,
    fun c => filter_sortByCountDesc _ c⟩

/-- Witness for C3 (amended) at the two-feature input with values
`"b"`, `"5"`. -/
theorem c3_witness :
    (⟨2, 2, 2, [("5", 1), ("b", 1)], "k"⟩ : FieldStats).sortedValues =
      (sortByCountDesc (statsEntries [⟨[("k", .str "b")]⟩, ⟨[("k", .str "5")]⟩] "k")).take 20 ∧
    (sortByCountDesc (statsEntries [⟨[("k", .str "b")]⟩, ⟨[("k", .str "5")]⟩] "k")).Pairwise
      (fun a b => b.2 ≤ a.2) ∧
    ∀ c : Nat,
      (sortByCountDesc (statsEntries [⟨[("k", .str "b")]⟩, ⟨[("k", .str "5")]⟩] "k")).filter
          (fun e => e.2 == c) =
        (statsEntries [⟨[("k", .str "b")]⟩, ⟨[("k", .str "5")]⟩] "k").filter
          (fun e => e.2 == c) :=
  c3_ties_follow_entries_order [⟨[("k", .str "b")]⟩, ⟨[("k", .str "5")]⟩] "k"
    ⟨2, 2, 2, [("5", 1), ("b", 1)], "k"⟩ (by decide)

/-- The produced graphics are exactly the graphics of the features whose
geometry converts, in order: mapping then filtering on a null geometry
commute into filtering the enumerated features first. -/
theorem geoJSONGraphics_filter_eq (features : List GeoFeature) :
    geoJSONGraphics features =
      (features.enum.filter fun p => (convertGeometry p.2.geometry).isSome).map
        fun p => makeGraphic p.1 p.2 := by
  unfold geoJSONGraphics
  rw [List.filter_map]
  rfl

/-- C6: a feature with missing geometry or an unrecognized geometry type
converts to null, is dropped from the produced graphics, and the
remaining features are still converted in order (the conversion is a
total function: it never throws). -/
theorem c6_unsupported_dropped (features : List GeoFeature) (f : GeoFeature)
    (hf : f.geometry = none ∨ ∃ t, f.geometry = some (.unsupported t)) :
    convertGeometry f.geometry = none ∧
    (∀ i : Nat, makeGraphic i f ∉ geoJSONGraphics features) ∧
    geoJSONGraphics features =
      (features.enum.filter fun p => (convertGeometry p.2.geometry).isSome).map
        fun p => makeGraphic p.1 p.2 := by
  have hconv : convertGeometry f.geometry = none := by
    rcases hf with hf | ⟨t, hf⟩ <;> rw [hf] <;> rfl
  refine ⟨hconv, ?_, geoJSONGraphics_filter_eq features⟩
  intro i hmem
  unfold geoJSONGraphics at hmem
  have hsome := List.of_mem_filter hmem
  rw [show (makeGraphic i f).geometry = convertGeometry f.geometry from rfl, hconv] at hsome
  exact Bool.false_ne_true hsome

/-- Witness for C6: a two-feature collection whose second feature has the
unrecognized geometry type `"circle"`. -/
theorem c6_witness :
    convertGeometry (some (.unsupported "circle") : Option GeoJSONGeometry) = none ∧
    (∀ i : Nat, makeGraphic i ⟨some (.unsupported "circle"), []⟩ ∉
      geoJSONGraphics [⟨some (.point [0, 0]), []⟩, ⟨some (.unsupported "circle"), []⟩]) ∧
    geoJSONGraphics [⟨some (.point [0, 0]), []⟩, ⟨some (.unsupported "circle"), []⟩] =
      (([⟨some (.point [0, 0]), []⟩, ⟨some (.unsupported "circle"), []⟩] :
          List GeoFeature).enum.filter
        fun p => (convertGeometry p.2.geometry).isSome).map
        fun p => makeGraphic p.1 p.2 :=
  c6_unsupported_dropped [⟨some (.point [0, 0]), []⟩, ⟨some (.unsupported "circle"), []⟩]
    ⟨some (.unsupported "circle"), []⟩ (Or.inr ⟨"circle", rfl⟩)

/-- Looking up a key is unchanged by setting a different key. -/
theorem lookup_jsObjSet_ne {obj : List (String × JSValue)} {k k' : String} {v : JSValue}
    (h : k ≠ k') : (jsObjSet obj k' v).lookup k = obj.lookup k := by
  induction obj with
  | nil => simp [jsObjSet, List.lookup, beq_eq_false_iff_ne.mpr h]
  | cons e rest ih =>
    obtain ⟨k0, v0⟩ := e
    simp only [jsObjSet]
    by_cases h0 : k0 = k'
    · subst h0
      rw [if_pos rfl]
      simp [List.lookup, beq_eq_false_iff_ne.mpr h]
    · rw [if_neg h0]
      by_cases hk0 : k = k0 <;> simp [List.lookup, hk0, ih]

/-- Spreading properties that avoid a key leaves that key's binding
untouched. -/
theorem lookup_foldl_jsObjSet {props base : List (String × JSValue)} {k : String}
    (h : ∀ kv ∈ props, kv.1 ≠ k) :
    (props.foldl (fun o kv => jsObjSet o kv.1 kv.2) base).lookup k = base.lookup k := by
  induction props generalizing base with
  | nil => rfl
  | cons kv rest ih =>
    rw [List.foldl_cons, ih fun x hx => h x (List.mem_cons_of_mem _ hx)]
    exact lookup_jsObjSet_ne fun he => h kv (List.mem_cons_self _ _) he.symm

/-- A graphic's `OBJECTID` and `FID` are the 1-based feature index, as
long as the feature's own properties do not redefine those keys. -/
theorem objectId_makeGraphic {i : Nat} {f : GeoFeature}
    (h : ∀ kv ∈ f.properties, kv.1 ≠ "OBJECTID" ∧ kv.1 ≠ "FID") :
    (makeGraphic i f).attributes.lookup "OBJECTID" = some (.num ((i + 1 : ℕ) : ℚ)) ∧
    (makeGraphic i f).attributes.lookup "FID" = some (.num ((i + 1 : ℕ) : ℚ)) := by
  unfold makeGraphic
  constructor
  · rw [lookup_foldl_jsObjSet fun kv hkv => (h kv hkv).1]
    rfl
  · rw [lookup_foldl_jsObjSet fun kv hkv => (h kv hkv).2]
    rfl

/-- C10 fails on the code as stated universally: a feature whose
properties themselves carry an `OBJECTID` key overrides the assigned
index via the object spread, so the produced graphic's `OBJECTID` is the
property value `"x"`, not the 1-based position 1. -/
theorem c10_counterexample :
    graphicObjectIds
        (geoJSONGraphics [⟨some (.point [0, 0]), [("OBJECTID", .str "x")]⟩]) =
      [some (.str "x")] ∧
    (some (JSValue.str "x") : Option JSValue) ≠ some (.num 1) := by decide

/-- C10 (amended): when no feature's properties redefine `OBJECTID` or
`FID`, every graphic's `OBJECTID` and `FID` equal the feature's 1-based
position in the input array, assigned before null-geometry filtering; so
whenever a dropped feature precedes a kept one the layer's `OBJECTID`
sequence is not the contiguous sequence `1..n`. -/
theorem c10_objectids (features : List GeoFeature)
    (hprops : ∀ f ∈ features, ∀ kv ∈ f.properties, kv.1 ≠ "OBJECTID" ∧ kv.1 ≠ "FID") :
    (∀ i f, (i, f) ∈ features.enum →
      (makeGraphic i f).attributes.lookup "OBJECTID" = some (.num ((i + 1 : ℕ) : ℚ)) ∧
      (makeGraphic i f).attributes.lookup "FID" = some (.num ((i + 1 : ℕ) : ℚ))) ∧
    (∀ i j fi fj, i < j → features.get? i = some fi → features.get? j = some fj →
      convertGeometry fi.geometry = none → (convertGeometry fj.geometry).isSome = true →
      graphicObjectIds (geoJSONGraphics features) ≠
        (List.range' 1 (geoJSONGraphics features).length).map
          fun n : ℕ => some (.num (n : ℚ))) := by
  constructor
  · intro i f hif
    have hf : f ∈ features := List.get?_mem (List.mem_enum_iff_get?.mp hif)
    exact objectId_makeGraphic (hprops f hf)
  · intro i j fi fj hij hgi hgj hci hcj heq
    have hids : graphicObjectIds (geoJSONGraphics features) =
        ((features.enum.filter fun p => (convertGeometry p.2.geometry).isSome).map
            Prod.fst).map fun n => some (JSValue.num ((n + 1 : ℕ) : ℚ)) := by
      rw [geoJSONGraphics_filter_eq, graphicObjectIds, List.map_map, List.map_map]
      refine List.map_congr_left fun p hp => ?_
      have hpf : p.2 ∈ features :=
        List.get?_mem (List.mem_enum_iff_get?.mp (List.mem_of_mem_filter hp))
      exact (objectId_makeGraphic (hprops p.2 hpf)).1
    have hr : (List.range' 1 (geoJSONGraphics features).length).map
          (fun n : ℕ => some (JSValue.num (n : ℚ))) =
        (List.range (geoJSONGraphics features).length).map
          (fun n => some (JSValue.num ((n + 1 : ℕ) : ℚ))) := by
      rw [List.range'_eq_map_range, List.map_map]
      refine List.map_congr_left fun a _ => ?_
      simp [Function.comp, Nat.add_comm]
    have heq' : ((features.enum.filter fun p =>
          (convertGeometry p.2.geometry).isSome).map Prod.fst).map
          (fun n => some (JSValue.num ((n + 1 : ℕ) : ℚ))) =
        (List.range (geoJSONGraphics features).length).map
          (fun n => some (JSValue.num ((n + 1 : ℕ) : ℚ))) := by
      rw [← hids, heq, hr]
    have hinj : Function.Injective fun n : Nat => some (JSValue.num ((n + 1 : ℕ) : ℚ)) := by
      intro a b hab
      simp only [Option.some.injEq, JSValue.num.injEq, Nat.cast_inj] at hab
      omega
    have hK : (features.enum.filter fun p =>
        (convertGeometry p.2.geometry).isSome).map Prod.fst =
        List.range (geoJSONGraphics features).length :=
      List.map_injective_iff.mpr hinj heq'
    have hjK : j ∈ (features.enum.filter fun p =>
        (convertGeometry p.2.geometry).isSome).map Prod.fst := by
      refine List.mem_map.mpr ⟨(j, fj), List.mem_filter.mpr ⟨?_, ?_⟩, rfl⟩
      · exact List.mem_enum_iff_get?.mpr hgj
      · exact hcj
    have hiK : i ∉ (features.enum.filter fun p =>
        (convertGeometry p.2.geometry).isSome).map Prod.fst := by
      intro hiK
      obtain ⟨p, hp, hp1⟩ := List.mem_map.mp hiK
      have hget : features.get? p.1 = some p.2 :=
        List.mem_enum_iff_get?.mp (List.mem_of_mem_filter hp)
      rw [hp1, hgi] at hget
      have hpP := List.of_mem_filter hp
      rw [show p.2 = fi from (Option.some.injEq _ _).mp hget.symm, hci] at hpP
      exact Bool.false_ne_true hpP
    rw [hK] at hjK hiK
    exact hiK (List.mem_range.mpr (lt_trans hij (List.mem_range.mp hjK)))

/-- Witness for C10 (amended): a dropped unsupported-geometry feature at
position 0 followed by a kept point feature makes the `OBJECTID`
sequence non-contiguous. -/
theorem c10_witness :
    graphicObjectIds
        (geoJSONGraphics
          [⟨some (.unsupported "circle"), []⟩, ⟨some (.point [0, 0]), []⟩]) ≠
      (List.range' 1
          (geoJSONGraphics
            [⟨some (.unsupported "circle"), []⟩, ⟨some (.point [0, 0]), []⟩]).length).map
        fun n : ℕ => some (.num (n : ℚ)) :=
  (c10_objectids
      [⟨some (.unsupported "circle"), []⟩, ⟨some (.point [0, 0]), []⟩]
      (by decide)).2 0 1
    ⟨some (.unsupported "circle"), []⟩ ⟨some (.point [0, 0]), []⟩
    (by decide) rfl rfl rfl rfl

/-- A statistics result with zero valid values has zero unique values, so
line 1402's `stats.uniqueCount === 0` check fires exactly on zero valid
values. -/
theorem uniqueCount_zero_of_validCount_zero {features : List QueryFeature}
    {fieldName : String} {s : FieldStats}
    (h : analyzeFieldValues features fieldName = some s) (hv : s.validCount = 0) :
    s.uniqueCount = 0 := by
  obtain ⟨-, -, hvc, huc, -, -⟩ := analyze_some_elim h
  rw [hvc] at hv
  have hnil : (features.map fun f => getAttr f fieldName).filter isValidValue = [] :=
    List.length_eq_zero.mp hv
  rw [huc, fieldValueKeys, hnil]
  rfl

/-- C7: when no field is selected, or no classification layer is current,
or the field's statistics are unavailable or have zero valid values, the
classification aborts with a user-visible alert and the whole state — in
particular the layer's renderer — is unchanged. -/
theorem c7_precondition_aborts (st : ClassificationState)
    (h : st.fieldSelectValue = "" ∨ st.currentClassificationLayer = none ∨
      ∃ layer, st.currentClassificationLayer = some layer ∧
        (analyzeFieldValues layer.features st.fieldSelectValue = none ∨
          ∃ s, analyzeFieldValues layer.features st.fieldSelectValue = some s ∧
            s.validCount = 0)) :
    (applyFieldClassification st).1 = st ∧
      ((applyFieldClassification st).2).isSome = true := by
  unfold applyFieldClassification
  rcases h with h | h | ⟨layer, hl, hs⟩
  · rw [if_pos h]
    exact ⟨rfl, rfl⟩
  · by_cases hf : st.fieldSelectValue = ""
    · rw [if_pos hf]
      exact ⟨rfl, rfl⟩
    · rw [if_neg hf, h]
      exact ⟨rfl, rfl⟩
  · by_cases hf : st.fieldSelectValue = ""
    · rw [if_pos hf]
      exact ⟨rfl, rfl⟩
    · rw [if_neg hf, hl]
      simp only [classifyWithLayer]
      rcases hs with hs | ⟨s, hs, hv⟩
      · rw [hs]
        exact ⟨rfl, rfl⟩
      · rw [hs]
        simp only [classifyWithStats]
        rw [if_pos (uniqueCount_zero_of_validCount_zero hs hv)]
        exact ⟨rfl, rfl⟩

/-- Witness for C7: a selected field whose only value is null (zero valid
values) leaves the state untouched and raises an alert. -/
theorem c7_witness :
    (applyFieldClassification
        ⟨"k", some ⟨[⟨[("k", .null)]⟩], "polygon", .simple (createDefaultSymbol "polygon")⟩,
          none⟩).1 =
      ⟨"k", some ⟨[⟨[("k", .null)]⟩], "polygon", .simple (createDefaultSymbol "polygon")⟩,
        none⟩ ∧
    ((applyFieldClassification
        ⟨"k", some ⟨[⟨[("k", .null)]⟩], "polygon", .simple (createDefaultSymbol "polygon")⟩,
          none⟩).2).isSome = true :=
  c7_precondition_aborts _
    (Or.inr (Or.inr ⟨⟨[⟨[("k", .null)]⟩], "polygon", .simple (createDefaultSymbol "polygon")⟩,
      rfl, Or.inr ⟨⟨1, 0, 0, [], "k"⟩, by decide, rfl⟩⟩))

/-- The color the classification symbol carries is the color it was
built from, for every geometry type. -/
theorem symbolBaseColor_classificationSymbol (g : String) (c : List ℚ) :
    symbolBaseColor (classificationSymbol g c) = c := by
  unfold classificationSymbol
  split_ifs <;> rfl

/-- The i-th generated color is the palette entry at `i` modulo the
palette length. -/
theorem generateColors_getD {n i : Nat} (h : i < n) :
    (generateColors n).getD i [] =
      classificationColors.getD (i % classificationColors.length) [] := by
  unfold generateColors
  have hlen : i < ((List.range n).map fun i =>
      classificationColors.getD (i % classificationColors.length) []).length := by
    simpa using h
  rw [List.getD_eq_getElem _ _ hlen, List.getElem_map, List.getElem_range]

/-- C8: building the unique-value rule list from equal `sortedValues` and
the same geometry type yields identical ordered rule lists, and the i-th
rule's color is `palette[i mod palette.length]`. -/
theorem c8_renderer_deterministic (s1 s2 : FieldStats) (geometryType : String)
    (h : s1.sortedValues = s2.sortedValues) (i : Nat)
    (hi : i < (buildUniqueValueInfos s1.sortedValues geometryType).length) :
    buildUniqueValueInfos s1.sortedValues geometryType =
      buildUniqueValueInfos s2.sortedValues geometryType ∧
    symbolBaseColor
        ((buildUniqueValueInfos s1.sortedValues geometryType).get ⟨i, hi⟩).symbol =
      classificationColors.getD (i % classificationColors.length) [] := by
  refine ⟨by rw [h], ?_⟩
  have hi' : i < s1.sortedValues.length := by
    simpa [buildUniqueValueInfos] using hi
  simp only [buildUniqueValueInfos, List.get_eq_getElem, List.getElem_map,
    List.getElem_enum]
  rw [symbolBaseColor_classificationSymbol, generateColors_getD hi']

/-- Witness for C8 at a concrete two-bucket statistics record, geometry
type `"point"` and rule index 0. -/
theorem c8_witness :
    buildUniqueValueInfos (⟨2, 2, 2, [("A", 1), ("B", 1)], "k"⟩ : FieldStats).sortedValues
        "point" =
      buildUniqueValueInfos (⟨2, 2, 2, [("A", 1), ("B", 1)], "k"⟩ : FieldStats).sortedValues
        "point" ∧
    symbolBaseColor
        ((buildUniqueValueInfos
            (⟨2, 2, 2, [("A", 1), ("B", 1)], "k"⟩ : FieldStats).sortedValues "point").get
          ⟨0, by decide⟩).symbol =
      classificationColors.getD (0 % classificationColors.length) [] :=
  c8_renderer_deterministic ⟨2, 2, 2, [("A", 1), ("B", 1)], "k"⟩
    ⟨2, 2, 2, [("A", 1), ("B", 1)], "k"⟩ "point" rfl 0 (by decide)

end GISExplorer
